import Mathlib

/-!
Verification of the AMPS python bridge library (src/src/amps/init file).

The library mediates between externally authored python handler code
(Action, Endpoint, Service classes) and an Elixir host.  The embedding
below models the data the claims are about:

* python dictionaries holding JSON-like values are modelled as
  association lists over `String` keys with `Val` values; the operations
  `dlookup`, `dset`, `derase`, `dmerge` model subscription, key
  assignment, `del`, and the double-splat merge of two dicts.  A python
  dict never holds duplicate keys; on duplicate-free lists the
  operations below coincide with python semantics (first match wins,
  assignment updates in place, merge lets the right operand win).
* the filesystem is an oracle `FS : String → Option Nat` giving the size
  of an existing file (`os.path.getsize`), `none` when the call raises.
* a python operation that can raise is a Lean function into `Option`
  (or takes an `Except` valued oracle for the erlport transport);
  `none` / `.error` means the python code raised at that point.
* `uuid.uuid4()` is modelled by its 128 random bits, supplied as a
  `Nat`; successive draws of the generator in one run are supplied as a
  stream `gen : Nat → String`.
-/

namespace Amps

/-- JSON-like values stored in message envelopes and parameter maps.
The payload of an envelope is text (`str`), sizes are `nat`, flags are
`bool`, nested objects are `dict`. -/
inductive Val where
  | str (s : String)
  | nat (n : Nat)
  | bool (b : Bool)
  | dict (d : List (String × Val))

mutual

/-- Decidable equality for `Val` (the derive handler does not support
nested inductives in this Lean version). -/
def Val.decEq : (a b : Val) → Decidable (a = b)
  | .str a, .str b =>
    match String.decEq a b with
    | isTrue h => isTrue (h ▸ rfl)
    | isFalse h => isFalse (fun hh => h (Val.str.inj hh))
  | .nat a, .nat b =>
    match Nat.decEq a b with
    | isTrue h => isTrue (h ▸ rfl)
    | isFalse h => isFalse (fun hh => h (Val.nat.inj hh))
  | .bool a, .bool b =>
    match Bool.decEq a b with
    | isTrue h => isTrue (h ▸ rfl)
    | isFalse h => isFalse (fun hh => h (Val.bool.inj hh))
  | .dict a, .dict b =>
    match Val.decEqEntries a b with
    | isTrue h => isTrue (h ▸ rfl)
    | isFalse h => isFalse (fun hh => h (Val.dict.inj hh))
  | .str _, .nat _ => isFalse (fun h => Val.noConfusion h)
  | .str _, .bool _ => isFalse (fun h => Val.noConfusion h)
  | .str _, .dict _ => isFalse (fun h => Val.noConfusion h)
  | .nat _, .str _ => isFalse (fun h => Val.noConfusion h)
  | .nat _, .bool _ => isFalse (fun h => Val.noConfusion h)
  | .nat _, .dict _ => isFalse (fun h => Val.noConfusion h)
  | .bool _, .str _ => isFalse (fun h => Val.noConfusion h)
  | .bool _, .nat _ => isFalse (fun h => Val.noConfusion h)
  | .bool _, .dict _ => isFalse (fun h => Val.noConfusion h)
  | .dict _, .str _ => isFalse (fun h => Val.noConfusion h)
  | .dict _, .nat _ => isFalse (fun h => Val.noConfusion h)
  | .dict _, .bool _ => isFalse (fun h => Val.noConfusion h)

/-- Decidable equality for lists of dictionary entries. -/
def Val.decEqEntries : (a b : List (String × Val)) → Decidable (a = b)
  | [], [] => isTrue rfl
  | [], _ :: _ => isFalse (fun h => List.noConfusion h)
  | _ :: _, [] => isFalse (fun h => List.noConfusion h)
  | (k₁, v₁) :: r₁, (k₂, v₂) :: r₂ =>
    match String.decEq k₁ k₂ with
    | isFalse hk =>
      isFalse (by intro hh; injection hh with hh2 _; injection hh2 with hk2 _; exact hk hk2)
    | isTrue hk =>
      match Val.decEq v₁ v₂ with
      | isFalse hv =>
        isFalse (by intro hh; injection hh with hh2 _; injection hh2 with _ hv2; exact hv hv2)
      | isTrue hv =>
        match Val.decEqEntries r₁ r₂ with
        | isFalse hr => isFalse (by intro hh; injection hh with _ ht; exact hr ht)
        | isTrue hr => isTrue (by rw [hk, hv, hr])

end

instance : DecidableEq Val := Val.decEq

/-- A python dictionary with string keys, as found after `json.loads`. -/
abbrev Dict := List (String × Val)

/-- `dlookup d k` models `d[k]` / `d.get(k)`: the value bound to key `k`
(first binding wins; an actual python dict has each key at most once). -/
def dlookup : Dict → String → Option Val
  | [], _ => none
  | (k₁, v) :: rest, k => if k₁ = k then some v else dlookup rest k

/-- `dcontains d k` models the python test `k in d`. -/
def dcontains (d : Dict) (k : String) : Bool :=
  (dlookup d k).isSome

/-- `dset d k v` models the python assignment `d[k] = v`: replace the
binding if the key is present, otherwise append it. -/
def dset : Dict → String → Val → Dict
  | [], k, v => [(k, v)]
  | (k₁, v₁) :: rest, k, v =>
    if k₁ = k then (k, v) :: rest else (k₁, v₁) :: dset rest k v

/-- `derase d k` models the python statement `del d[k]` on a dict that
contains the key (the model drops every binding of the key). -/
def derase : Dict → String → Dict
  | [], _ => []
  | (k₁, v₁) :: rest, k =>
    if k₁ = k then derase rest k else (k₁, v₁) :: derase rest k

/-- Value override used by `dmerge`: an entry of the left dict keeps its
position but takes the right dict value when the key occurs there. -/
def dmergeEntry (b : Dict) (p : String × Val) : String × Val :=
  match dlookup b p.1 with
  | some v => (p.1, v)
  | none => p

/-- `dmerge a b` models the python expression built from the double
splats of `a` and then `b` inside a dict literal: the keys of `a` in
order with values overridden by `b`, followed by the keys only in `b`. -/
def dmerge (a b : Dict) : Dict :=
  a.map (dmergeEntry b) ++ b.filter (fun p => ! dcontains a p.1)

/-- `pyLen v` models python `len(v)`: defined for strings and dicts,
a `TypeError` (`none`) otherwise. -/
def pyLen : Val → Option Nat
  | .str s => some s.length
  | .dict d => some d.length
  | _ => none

/-- Python truthiness of a `Val`, as used by `if parms[...]:`. -/
def truthy : Val → Bool
  | .str s => ! s.isEmpty
  | .nat n => n != 0
  | .bool b => b
  | .dict d => ! d.isEmpty

/-- Character scan behind `basename`: keep the segment accumulated
since the last slash (accumulator reversed), restarting at every
slash. -/
def basenameChars : List Char → List Char → List Char
  | [], acc => acc.reverse
  | c :: rest, acc =>
    if c = '/' then basenameChars rest [] else basenameChars rest (c :: acc)

/-- `basename p` models `os.path.basename(p)` on posix paths: the part
of the string after the last slash. -/
def basename (p : String) : String :=
  String.mk (basenameChars p.data [])

/-- The filesystem oracle: `fs p = some n` when path `p` names an
existing file of size `n` bytes, `none` when `os.path.getsize(p)`
raises. -/
abbrev FS := String → Option Nat

/-! ## Util -/

/-- One lowercase hexadecimal digit character for a nibble below 16. -/
def hexDigit (n : Nat) : Char :=
  if n < 10 then Char.ofNat (48 + n) else Char.ofNat (87 + n)

/-- The lowercase hexadecimal rendering of a natural number, padded on
the left with zeroes to exactly `w` digits (only the low `4*w` bits are
rendered), most significant digit first. -/
def toHexPad : Nat → Nat → List Char
  | 0, _ => []
  | w + 1, v => toHexPad w (v / 16) ++ [hexDigit (v % 16)]

namespace Util

/-- `Util.get_id`, the AMPS id generator.  The source evaluates
`uuid.UUID(str(uuid.uuid4())).hex`: draw a random 128-bit UUID, render
it in the canonical dashed form, parse it back, and take the `hex`
field, which is the 32-digit lowercase hexadecimal rendering of the
128-bit value with the dashes stripped.  The random draw is modelled by
the parameter `r`, the 128 random bits. -/
def get_id (r : Nat) : String :=
  String.mk (toHexPad 32 (r % 2 ^ 128))

end Util

/-- Character predicate for the id format claim: a lowercase
hexadecimal digit (0-9 or a-f), no punctuation or separators. -/
def isLowerHexDigit (c : Char) : Bool :=
  (48 ≤ c.toNat && c.toNat ≤ 57) || (97 ≤ c.toNat && c.toNat ≤ 102)

/-- The ids issued by the generator stream `gen` in the first `n` draws
of a run. -/
def issuedIds (gen : Nat → String) (n : Nat) : List String :=
  (List.range n).map gen

/-! ## Logger

`Logger.log` performs exactly one transport operation and contains no
try/except.  Service-bound loggers (`Logger(service=s)`) emit through
`s.__log__`, an erlport `cast` of `(log, (level, message))` to the
service log handle; unbound loggers emit through a blocking erlport
`call` to the global `Elixir.Amps.PyProcess.log` entry with the level,
the message and the session id.  The transport outcome is an oracle:
`.ok ()` when the erlport operation returns, `.error e` when it raises
with message `e`. -/

/-- Outcomes of the two erlport transport operations a logger may use,
as a function of the emitted payload. -/
structure Transport where
  /-- Outcome of `cast(lhandler, (log, (level, message)))` used by the
  service-bound variant. -/
  castLog : String → String → Except String Unit
  /-- Outcome of `call(PyProcess, log, [level, message, [(sid, sid)]])`
  used by the unbound variant. -/
  callLog : String → String → String → Except String Unit

/-- `Logger.log(level, message)`.  `serviceBound` tells which transport
variant was chosen at construction (`service` supplied or not), `sid`
is the session id stored at construction.  The body is a single
unguarded transport operation, so its outcome is the transport's. -/
def logger_log (t : Transport) (sid : String) (serviceBound : Bool)
    (level message : String) : Except String Unit :=
  if serviceBound then t.castLog level message
  else t.callLog level message sid

/-- `Logger.info(message)` delegates to `log` with level `info`. -/
def logger_info (t : Transport) (sid : String) (serviceBound : Bool)
    (message : String) : Except String Unit :=
  logger_log t sid serviceBound "info" message

/-- `Logger.debug(message)` delegates to `log` with level `debug`. -/
def logger_debug (t : Transport) (sid : String) (serviceBound : Bool)
    (message : String) : Except String Unit :=
  logger_log t sid serviceBound "debug" message

/-- `Logger.warning(message)` delegates to `log` with level
`warning`. -/
def logger_warning (t : Transport) (sid : String) (serviceBound : Bool)
    (message : String) : Except String Unit :=
  logger_log t sid serviceBound "warning" message

/-- `Logger.error(message)` delegates to `log` with level `error`. -/
def logger_error (t : Transport) (sid : String) (serviceBound : Bool)
    (message : String) : Except String Unit :=
  logger_log t sid serviceBound "error" message

/-! ## Action / Endpoint -/

/-- The attribute state an `Action.__init__` (and `Endpoint.__init__`)
leaves on the instance when construction completes. -/
structure ActionState where
  /-- `self.msg`, the message envelope dict. -/
  msg : Dict
  /-- `self.parms`, the action parameter dict. -/
  parms : Dict
  /-- `self.sysparms` value from the construction payload. -/
  sysparms : Val
  /-- `self.extra`, the value of `parms` under its own `parms` key. -/
  extra : Val
  /-- `self.provider`: `some` when the attribute was populated. -/
  provider : Option Val
  /-- The session id the constructed `Logger` was scoped to (`some`
  when `self.msg.get(sid)` was truthy). -/
  loggerSid : Option Val
  deriving DecidableEq

/-- `Action.__init__(msgdata)` after `json.loads`: extract `msg`,
`parms` and `sysparms`, derive `extra = parms[parms]`, test
`parms[use_provider]` (a `KeyError`, hence `none`, when the key is
absent) and populate `provider` from `parms[provider]` exactly when the
flag is truthy, then scope the logger to `msg.get(sid)` when that is
truthy.  `none` models construction raising. -/
def action_init (msgdata : Dict) : Option ActionState :=
  match dlookup msgdata "msg" with
  | some (Val.dict msg) =>
    match dlookup msgdata "parms" with
    | some (Val.dict parms) =>
      match dlookup msgdata "sysparms" with
      | some sysparms =>
        match dlookup parms "parms" with
        | some extra =>
          match dlookup parms "use_provider" with
          | some up =>
            let provider? : Option (Option Val) :=
              if truthy up then
                match dlookup parms "provider" with
                | some p => some (some p)
                | none => none
              else some none
            match provider? with
            | some provider =>
              let loggerSid : Option Val :=
                match dlookup msg "sid" with
                | some sv => if truthy sv then some sv else none
                | none => none
              some ⟨msg, parms, sysparms, extra, provider, loggerSid⟩
            | none => none
          | none => none
        | none => none
      | none => none
    | _ => none
  | _ => none

/-- `Action.__run__`: the user `action()` callback runs inside a
try/except; its outcome is `.ok response` or `.error e` where `e` is
the text of the raised exception.  On a fault the executor answers the
fixed error dictionary instead (the returned dict is then passed to
`json.dumps`, which is outside the model). -/
def action_run (outcome : Except String Dict) : Dict :=
  match outcome with
  | .ok response => response
  | .error e => [("error", Val.bool true), ("reason", Val.str e)]

/-- The default `Action.action` body, used when not overridden. -/
def action_default : Dict :=
  [("status", Val.str "completed")]

/-- `Action.send_status(status, reason=None)`. -/
def send_status (status : String) (reason : Option String) : Dict :=
  match reason with
  | some r => [("status", Val.str status), ("reason", Val.str r)]
  | none => [("status", Val.str status)]

/-- `Action.send_async(status, key, data)`. -/
def send_async (status key : String) (data : Val) : Dict :=
  [("status", Val.str status), ("async", Val.dict [(key, data)])]

/-- The `msg` fragment built by `Action.send_file`: the computed
`fname`/`fsize`/`fpath` dict with `meta` merged over it. -/
def send_file_msg (fpath : String) (fsize : Nat) (meta : Dict) : Dict :=
  dmerge
    [("fname", Val.str (basename fpath)),
     ("fsize", Val.nat fsize),
     ("fpath", Val.str fpath)] meta

/-- `Action.send_file(status, fpath, meta={})`: read the base name and
the on-disk size of `fpath` (raising, hence `none`, when the file does
not exist), build the message fragment and merge `meta` over it. -/
def send_file (fs : FS) (status fpath : String) (meta : Dict) : Option Dict :=
  match fs fpath with
  | none => none
  | some fsize =>
    some [("status", Val.str status), ("msg", Val.dict (send_file_msg fpath fsize meta))]

/-- `Action.send_data(status, data, meta={})`. -/
def send_data (status data : String) (meta : Dict) : Dict :=
  [("status", Val.str status),
   ("msg", Val.dict (dmerge [("data", Val.str data)] meta))]

/-- `Action.send_error(reason)`. -/
def send_error (reason : String) : Dict :=
  [("status", Val.str "failed"), ("reason", Val.str reason)]

/-! ## Service -/

/-- The two-element tagged tuple a `Service.__receive__` dispatch
answers to the host: `(ok, value)` or `(error, text)`. -/
inductive TaggedResult where
  | ok (v : Val)
  | error (reason : String)
  deriving DecidableEq

/-- `Service.__receive__(data)`.  Everything runs inside one try/except:
`json.loads` (outcome passed in as `data`), the session lookup
`msg[sid]`, the service name lookup `parms[name]` for the banner log
line, the `logger.info` transport call (outcome passed in as
`logOutcome`), then the user `handle_message` callback.  Any raise is
answered as `(error, str(e))`; a normal return `v` as `(ok, v)`. -/
def service_receive (data : Except String Dict) (parms : Dict)
    (logOutcome : Except String Unit)
    (handle : Dict → Except String Val) : TaggedResult :=
  match data with
  | .error e => .error e
  | .ok msg =>
    match dlookup msg "sid" with
    | none => .error "KeyError: sid"
    | some _ =>
      match dlookup parms "name" with
      | none => .error "KeyError: name"
      | some _ =>
        match logOutcome with
        | .error e => .error e
        | .ok _ =>
          match handle msg with
          | .ok v => .ok v
          | .error e => .error e

/-- What a completed `Service.send_message` leaves behind: the merged
envelope passed to the host call, the two mutated argument dicts, and
the returned id. -/
structure SendMsgResult where
  /-- The merged envelope `json.dumps({**msg, **newmsg})` handed to the
  host `send_message` call. -/
  merged : Dict
  /-- The original `msg` dict as the caller sees it afterwards. -/
  msgOut : Dict
  /-- The overlay `newmsg` dict as the caller sees it afterwards. -/
  newmsgOut : Dict
  /-- The id returned to the caller. -/
  msgid : String
  deriving DecidableEq

/-- `Service.send_message(msg, newmsg)` with the freshly drawn id
supplied as `msgid`.  Faithful to the source order: read `msg[msgid]`
(KeyError when absent), set `parent` and `msgid` on the overlay, then
branch on `data in newmsg` (deleting `msg[fpath]`, a KeyError when
absent, and recomputing `fsize` from `len(newmsg[data])`), else on
`fpath in newmsg` (deleting `msg[data]` and recomputing `fsize` from
`os.path.getsize`), else leave the payload fields alone; finally merge
the overlay over the original and call the host.  `none` models the
python call raising. -/
def send_message (fs : FS) (msgid : String) (msg newmsg : Dict) :
    Option SendMsgResult :=
  match dlookup msg "msgid" with
  | none => none
  | some pmid =>
    let nm := dset (dset newmsg "parent" pmid) "msgid" (Val.str msgid)
    match dcontains nm "data" with
    | true =>
      match dcontains msg "fpath" with
      | false => none
      | true =>
        match dlookup nm "data" with
        | none => none
        | some d =>
          match pyLen d with
          | none => none
          | some l =>
            let msg2 := derase msg "fpath"
            let nm2 := dset nm "fsize" (Val.nat l)
            some ⟨dmerge msg2 nm2, msg2, nm2, msgid⟩
    | false =>
      match dcontains nm "fpath" with
      | true =>
        match dcontains msg "data" with
        | false => none
        | true =>
          match dlookup nm "fpath" with
          | some (Val.str p) =>
            match fs p with
            | none => none
            | some sz =>
              let msg2 := derase msg "data"
              let nm2 := dset nm "fsize" (Val.nat sz)
              some ⟨dmerge msg2 nm2, msg2, nm2, msgid⟩
          | _ => none
      | false =>
        some ⟨dmerge msg nm, msg, nm, msgid⟩

/-- What a completed `Service.send_new` produces: the envelope handed
to the host cast and the returned id. -/
structure SendNewResult where
  /-- The envelope `json.dumps(newmsg)` handed to the host cast. -/
  envelope : Dict
  /-- The id returned to the caller. -/
  msgid : String
  deriving DecidableEq

/-- `Service.send_new(newmsg)` with the freshly drawn id supplied as
`msgid`: set `msgid` on the envelope, compute `fsize` from
`len(newmsg[data])` when the `data` key is present and from
`os.path.getsize(newmsg[fpath])` otherwise (a KeyError when neither key
is present), then cast the envelope to the creation handle tagged
`new`.  `none` models the python call raising. -/
def send_new (fs : FS) (msgid : String) (newmsg : Dict) :
    Option SendNewResult :=
  let nm := dset newmsg "msgid" (Val.str msgid)
  match dcontains nm "data" with
  | true =>
    match dlookup nm "data" with
    | none => none
    | some d =>
      match pyLen d with
      | none => none
      | some l => some ⟨dset nm "fsize" (Val.nat l), msgid⟩
  | false =>
    match dlookup nm "fpath" with
    | some (Val.str p) =>
      match fs p with
      | none => none
      | some sz => some ⟨dset nm "fsize" (Val.nat sz), msgid⟩
    | _ => none

/-! ## Envelope well-formedness -/

/-- The payload invariant for an envelope dict: exactly one of `data`
and `fpath` is present, and `fsize` equals the length of the inline
data (when `data` is present) or the on-disk size of the referenced
file (when `fpath` is present). -/
def envelopeOk (fs : FS) (d : Dict) : Bool :=
  match dlookup d "data", dlookup d "fpath" with
  | some v, none =>
    match pyLen v, dlookup d "fsize" with
    | some l, some (Val.nat n) => decide (l = n)
    | _, _ => false
  | none, some (Val.str p) =>
    match fs p, dlookup d "fsize" with
    | some sz, some (Val.nat n) => decide (sz = n)
    | _, _ => false
  | _, _ => false

/-- Branch-sensitive `fsize` correctness for a new send: the produced
envelope `out` carries an `fsize` equal to the length of the source
envelope's inline `data` when that key is present, and to the size of
the file referenced by its `fpath` otherwise. -/
def fsizeMatches (fs : FS) (src out : Dict) : Bool :=
  match dlookup src "data" with
  | some d =>
    match pyLen d with
    | some l => decide (dlookup out "fsize" = some (Val.nat l))
    | none => false
  | none =>
    match dlookup src "fpath" with
    | some (Val.str p) =>
      match fs p with
      | some sz => decide (dlookup out "fsize" = some (Val.nat sz))
      | none => false
    | _ => false

/-! ## Concrete instances used to exercise the theorems -/

/-- A filesystem with no readable files. -/
def noFiles : FS := fun _ => none

/-- A filesystem holding exactly the 42-byte file of scenario 3. -/
def fs42 : FS := fun p => if p = "/tmp/out.txt" then some 42 else none

/-- A filesystem holding the 3-byte file referenced by the scenario 4
original envelope. -/
def fsX : FS := fun p => if p = "/x" then some 3 else none

/-- Scenario 4 original envelope: msgid A, payload by file reference. -/
def scnMsg : Dict :=
  [("msgid", Val.str "A"), ("fpath", Val.str "/x"), ("fsize", Val.nat 3)]

/-- Scenario 4 overlay: inline payload hello. -/
def scnOverlay : Dict := [("data", Val.str "hello")]

/-- The completed scenario 4 derived send. -/
def scnResult : SendMsgResult :=
  (send_message fsX "b" scnMsg scnOverlay).getD ⟨[], [], [], ""⟩

/-- A deterministic injective id stream standing in for the successive
`uuid.uuid4()` draws of a run. -/
def genA (n : Nat) : String := String.mk (List.replicate n 'a')

/-- Original envelope for the lineage run: its msgid is the id issued
by the first draw of `genA`. -/
def linMsg : Dict := [("msgid", Val.str (genA 0)), ("data", Val.str "x")]

/-- The completed lineage derived send (empty overlay, second draw). -/
def linResult : SendMsgResult :=
  (send_message noFiles (genA 1) linMsg []).getD ⟨[], [], [], ""⟩

/-- Construction payload whose `parms` dict has every required field
except the `use_provider` flag. -/
def noFlagPayload : Dict :=
  [("msg", Val.dict []),
   ("parms", Val.dict [("parms", Val.dict [])]),
   ("sysparms", Val.dict [])]

/-- The inner `parms` dict of `noFlagPayload`. -/
def noFlagParms : Dict := [("parms", Val.dict [])]

/-- The inner `parms` dict of `flagPayload`: a truthy `use_provider`
flag and a provider map. -/
def flagParms : Dict :=
  [("parms", Val.dict []),
   ("use_provider", Val.bool true),
   ("provider", Val.dict [("host", Val.str "h1")])]

/-- Construction payload with a truthy `use_provider` flag and a
provider map. -/
def flagPayload : Dict :=
  [("msg", Val.dict []),
   ("parms", Val.dict flagParms),
   ("sysparms", Val.dict [])]

/-- The attribute state left by constructing from `flagPayload`. -/
def flagState : ActionState :=
  (action_init flagPayload).getD ⟨[], [], Val.dict [], Val.dict [], none, none⟩

/-- A transport whose blocking global log call raises. -/
def downTransport : Transport where
  castLog := fun _ _ => Except.ok ()
  callLog := fun _ _ _ => Except.error "transport down"

/-- New-send envelope with a file-reference payload and no parent. -/
def newFileMsg : Dict := [("fpath", Val.str "/x")]

/-- The completed new send of `newFileMsg`. -/
def newFileResult : SendNewResult :=
  (send_new fsX "c" newFileMsg).getD ⟨[], ""⟩

/-- Scenario 3 metadata. -/
def scnMeta : Dict := [("partner", Val.str "acme")]

/-- Overlay for the frame-effect witness: inline data replacing the
original file reference. -/
def frameOverlay : Dict := [("data", Val.str "hi")]

/-- The completed frame-effect derived send. -/
def frameResult : SendMsgResult :=
  (send_message fsX "d" scnMsg frameOverlay).getD ⟨[], [], [], ""⟩

/-! ## Dictionary lemmas -/

theorem dlookup_dset (d : Dict) (k : String) (v : Val) (k' : String) :
    dlookup (dset d k v) k' = if k = k' then some v else dlookup d k' := by
  induction d with
  | nil => simp [dset, dlookup]
  | cons p rest ih =>
    obtain ⟨k₁, v₁⟩ := p
    by_cases h : k₁ = k
    · subst h
      by_cases h' : k₁ = k' <;> simp [dset, dlookup, h']
    · by_cases h' : k₁ = k'
      · subst h'
        have hkk : k ≠ k₁ := fun hh => h hh.symm
        simp [dset, dlookup, h, hkk]
      · simp [dset, dlookup, h, h', ih]

theorem dcontains_dset (d : Dict) (k : String) (v : Val) (k' : String) :
    dcontains (dset d k v) k' = if k = k' then true else dcontains d k' := by
  by_cases h : k = k' <;> simp [dcontains, dlookup_dset, h]

theorem dlookup_derase (d : Dict) (k k' : String) :
    dlookup (derase d k) k' = if k = k' then none else dlookup d k' := by
  induction d with
  | nil => simp [derase, dlookup]
  | cons p rest ih =>
    obtain ⟨k₁, v₁⟩ := p
    by_cases h : k₁ = k
    · subst h
      by_cases h' : k₁ = k'
      · subst h'
        simp [derase, ih]
      · simp [derase, dlookup, h', ih]
    · by_cases h' : k₁ = k'
      · subst h'
        have hkk : k ≠ k₁ := fun hh => h hh.symm
        simp [derase, dlookup, h, hkk]
      · simp [derase, dlookup, h, h', ih]

theorem dlookup_append (a b : Dict) (k : String) :
    dlookup (a ++ b) k =
      match dlookup a k with
      | some v => some v
      | none => dlookup b k := by
  induction a with
  | nil => simp [dlookup]
  | cons p rest ih =>
    obtain ⟨k₁, v₁⟩ := p
    by_cases h : k₁ = k <;> simp [dlookup, h, ih]

theorem dlookup_map_dmergeEntry (a b : Dict) (k : String) :
    dlookup (a.map (dmergeEntry b)) k =
      match dlookup a k with
      | none => none
      | some v =>
        match dlookup b k with
        | some w => some w
        | none => some v := by
  induction a with
  | nil => simp [dlookup]
  | cons p rest ih =>
    obtain ⟨k₁, v₁⟩ := p
    by_cases h : k₁ = k
    · subst h
      cases hb : dlookup b k₁ <;> simp [dmergeEntry, dlookup, hb]
    · cases hb : dlookup b k₁ <;> simp [dmergeEntry, dlookup, hb, h, ih]

theorem dlookup_filter_dcontains (a b : Dict) (k : String) :
    dlookup (b.filter (fun p => ! dcontains a p.1)) k =
      if dcontains a k then none else dlookup b k := by
  induction b with
  | nil => simp [dlookup]
  | cons p rest ih =>
    obtain ⟨k₁, v₁⟩ := p
    by_cases hc : dcontains a k₁
    · by_cases h : k₁ = k
      · subst h
        simp [List.filter, hc, ih]
      · simp [List.filter, hc, ih, dlookup, h]
    · by_cases h : k₁ = k
      · subst h
        simp [List.filter, hc, dlookup]
      · simp [List.filter, hc, dlookup, h, ih]

theorem dlookup_dmerge (a b : Dict) (k : String) :
    dlookup (dmerge a b) k =
      if dcontains b k then dlookup b k else dlookup a k := by
  unfold dmerge
  rw [dlookup_append, dlookup_map_dmergeEntry, dlookup_filter_dcontains]
  by_cases hb : dcontains b k
  · obtain ⟨w, hw⟩ := Option.isSome_iff_exists.mp hb
    cases ha : dlookup a k <;> simp [hw, ha, dcontains, hb]
  · have hbn : dlookup b k = none := by
      cases hx : dlookup b k
      · rfl
      · rw [dcontains, hx] at hb
        simp at hb
    cases ha : dlookup a k <;> simp [hbn, ha, dcontains, hb]

theorem dcontains_dmerge (a b : Dict) (k : String) :
    dcontains (dmerge a b) k = (dcontains a k || dcontains b k) := by
  by_cases hb : dcontains b k <;>
    simp [dcontains, dlookup_dmerge] at hb ⊢ <;> simp [hb]

/-! ## Inversion of a completed derived send -/

/-- Inversion lemma for `send_message`: a completed derived send read
the original msgid, returned the supplied fresh id, merged the mutated
original with the mutated overlay, stamped `parent` and `msgid` on the
overlay, and took exactly one of the three payload branches of the
source (overlay `data` present, overlay `fpath` present, neither). -/
theorem send_message_cases (fs : FS) (id : String) (msg newmsg : Dict) (r : SendMsgResult)
    (hr : send_message fs id msg newmsg = some r) :
    ∃ pmid, dlookup msg "msgid" = some pmid ∧ r.msgid = id ∧
      r.merged = dmerge r.msgOut r.newmsgOut ∧
      dlookup r.newmsgOut "parent" = some pmid ∧
      dlookup r.newmsgOut "msgid" = some (Val.str id) ∧
      ((∃ d l, dcontains newmsg "data" = true ∧ dcontains msg "fpath" = true ∧
          dlookup newmsg "data" = some d ∧ pyLen d = some l ∧
          r.msgOut = derase msg "fpath" ∧
          r.newmsgOut =
            dset (dset (dset newmsg "parent" pmid) "msgid" (Val.str id)) "fsize" (Val.nat l)) ∨
       (∃ p sz, dcontains newmsg "data" = false ∧ dcontains newmsg "fpath" = true ∧
          dcontains msg "data" = true ∧
          dlookup newmsg "fpath" = some (Val.str p) ∧ fs p = some sz ∧
          r.msgOut = derase msg "data" ∧
          r.newmsgOut =
            dset (dset (dset newmsg "parent" pmid) "msgid" (Val.str id)) "fsize" (Val.nat sz)) ∨
       (dcontains newmsg "data" = false ∧ dcontains newmsg "fpath" = false ∧
          r.msgOut = msg ∧
          r.newmsgOut = dset (dset newmsg "parent" pmid) "msgid" (Val.str id))) := by
  cases hm : dlookup msg "msgid" with
  | none =>
    unfold send_message at hr
    rw [hm] at hr
    simp at hr
  | some pmid =>
    refine ⟨pmid, rfl, ?_⟩
    cases b1 : dcontains newmsg "data" with
    | true =>
      cases b2 : dcontains msg "fpath" with
      | false =>
        have heq : send_message fs id msg newmsg = none := by
          simp [send_message, hm, dcontains_dset, b1, b2]
        rw [heq] at hr
        simp at hr
      | true =>
        cases hd : dlookup newmsg "data" with
        | none => simp [dcontains, hd] at b1
        | some d =>
          cases hl : pyLen d with
          | none =>
            have heq : send_message fs id msg newmsg = none := by
              simp [send_message, hm, dcontains_dset, dlookup_dset, b1, b2, hd, hl]
            rw [heq] at hr
            simp at hr
          | some l =>
            have heq : send_message fs id msg newmsg =
                some ⟨dmerge (derase msg "fpath")
                    (dset (dset (dset newmsg "parent" pmid) "msgid" (Val.str id)) "fsize" (Val.nat l)),
                  derase msg "fpath",
                  dset (dset (dset newmsg "parent" pmid) "msgid" (Val.str id)) "fsize" (Val.nat l),
                  id⟩ := by
              simp [send_message, hm, dcontains_dset, dlookup_dset, b1, b2, hd, hl]
            rw [heq] at hr
            injection hr with hr2
            subst hr2
            refine ⟨rfl, rfl, ?_, ?_, Or.inl ⟨d, l, rfl, rfl, rfl, hl, rfl, rfl⟩⟩
            · simp [dlookup_dset]
            · simp [dlookup_dset]
    | false =>
      cases b3 : dcontains newmsg "fpath" with
      | false =>
        have heq : send_message fs id msg newmsg =
            some ⟨dmerge msg (dset (dset newmsg "parent" pmid) "msgid" (Val.str id)),
              msg, dset (dset newmsg "parent" pmid) "msgid" (Val.str id), id⟩ := by
          simp [send_message, hm, dcontains_dset, b1, b3]
        rw [heq] at hr
        injection hr with hr2
        subst hr2
        refine ⟨rfl, rfl, ?_, ?_, Or.inr (Or.inr ⟨rfl, rfl, rfl, rfl⟩)⟩
        · simp [dlookup_dset]
        · simp [dlookup_dset]
      | true =>
        cases b4 : dcontains msg "data" with
        | false =>
          have heq : send_message fs id msg newmsg = none := by
            simp [send_message, hm, dcontains_dset, b1, b3, b4]
          rw [heq] at hr
          simp at hr
        | true =>
          cases hv : dlookup newmsg "fpath" with
          | none => simp [dcontains, hv] at b3
          | some v =>
            cases v with
            | str p =>
              cases hfs : fs p with
              | none =>
                have heq : send_message fs id msg newmsg = none := by
                  simp [send_message, hm, dcontains_dset, dlookup_dset, b1, b3, b4, hv, hfs]
                rw [heq] at hr
                simp at hr
              | some sz =>
                have heq : send_message fs id msg newmsg =
                    some ⟨dmerge (derase msg "data")
                        (dset (dset (dset newmsg "parent" pmid) "msgid" (Val.str id)) "fsize" (Val.nat sz)),
                      derase msg "data",
                      dset (dset (dset newmsg "parent" pmid) "msgid" (Val.str id)) "fsize" (Val.nat sz),
                      id⟩ := by
                  simp [send_message, hm, dcontains_dset, dlookup_dset, b1, b3, b4, hv, hfs]
                rw [heq] at hr
                injection hr with hr2
                subst hr2
                refine ⟨rfl, rfl, ?_, ?_, Or.inr (Or.inl ⟨p, sz, rfl, rfl, rfl, rfl, hfs, rfl, rfl⟩)⟩
                · simp [dlookup_dset]
                · simp [dlookup_dset]
            | nat n =>
              have heq : send_message fs id msg newmsg = none := by
                simp [send_message, hm, dcontains_dset, dlookup_dset, b1, b3, b4, hv]
              rw [heq] at hr
              simp at hr
            | bool b =>
              have heq : send_message fs id msg newmsg = none := by
                simp [send_message, hm, dcontains_dset, dlookup_dset, b1, b3, b4, hv]
              rw [heq] at hr
              simp at hr
            | dict d =>
              have heq : send_message fs id msg newmsg = none := by
                simp [send_message, hm, dcontains_dset, dlookup_dset, b1, b3, b4, hv]
              rw [heq] at hr
              simp at hr

/-! ## Claim C9: id generator format -/

theorem toHexPad_length (w : Nat) : ∀ v, (toHexPad w v).length = w := by
  induction w with
  | zero => intro v; rfl
  | succ n ih => intro v; simp [toHexPad, ih]

theorem isLowerHexDigit_hexDigit (m : Nat) (h : m < 16) :
    isLowerHexDigit (hexDigit m) = true := by
  interval_cases m <;> decide

theorem toHexPad_all (w : Nat) :
    ∀ v, ((toHexPad w v).all isLowerHexDigit) = true := by
  induction w with
  | zero => intro v; rfl
  | succ n ih =>
    intro v
    have hd := isLowerHexDigit_hexDigit (v % 16) (Nat.mod_lt _ (by norm_num))
    simp [toHexPad, List.all_append, ih, hd]

/-- Claim C9: every identifier produced by `Util.get_id` is a string of
exactly 32 characters, each a lowercase hexadecimal digit (so no
punctuation or separator characters), whatever the 128 random bits of
the underlying UUID draw were. -/
theorem C9_get_id_format (r : Nat) :
    (Util.get_id r).length = 32 ∧
      ((Util.get_id r).data.all isLowerHexDigit) = true := by
  unfold Util.get_id
  rw [String.length_mk]
  exact ⟨toHexPad_length 32 _, toHexPad_all 32 _⟩

/-! ## Claim C3: the executor catches action faults -/

/-- Claim C3: for every fault text `e` raised by the user `action()`
callback, `Action.__run__` (shared by `Endpoint`) catches the fault and
returns the error-marker dictionary with the fault text under `reason`;
being a total function of the outcome, it never re-raises.  In
particular a fault reading disk full yields the scenario 2 dict. -/
theorem C3_run_catches_faults (e : String) :
    action_run (Except.error e) = [("error", Val.bool true), ("reason", Val.str e)] ∧
      action_run (Except.error "disk full") =
        [("error", Val.bool true), ("reason", Val.str "disk full")] :=
  ⟨rfl, rfl⟩

/-! ## Claim C7: logger transport failures -/

/-- Claim C7 counterexample: the claim says a `Logger` call never
raises even when the underlying transport operation fails; but
`Logger.log` has no exception handling, so an unbound `info` call whose
blocking host call raises propagates that failure to the caller. -/
theorem C7_counterexample :
    logger_info downTransport "s1" false "hello" = Except.error "transport down" := rfl

/-- Claim C7 amended: `Logger.log` performs no exception handling: its
outcome is exactly the outcome of the single transport operation it
performs (the service-bound cast when a service was supplied at
construction, the blocking global call otherwise), so a transport
failure propagates to the caller; each of `info`/`debug`/`warning`/
`error` delegates to `log` with its fixed level and behaves the same
way. -/
theorem C7_logger_propagates (t : Transport) (sid : String) (b : Bool)
    (level message : String) :
    logger_log t sid b level message =
      (if b then t.castLog level message else t.callLog level message sid) ∧
    logger_info t sid b message = logger_log t sid b "info" message ∧
    logger_debug t sid b message = logger_log t sid b "debug" message ∧
    logger_warning t sid b message = logger_log t sid b "warning" message ∧
    logger_error t sid b message = logger_log t sid b "error" message :=
  ⟨rfl, rfl, rfl, rfl, rfl⟩

/-! ## Claim C4: receive dispatch tagging -/

/-- Claim C4: for every deserialized envelope with a session id, every
parms with a service name, and a banner log emission that returned:
when the user `handle_message` returns `v` the dispatch answers the
tagged pair `(ok, v)`, and when it raises a fault the dispatch answers
`(error, fault text)`; `service_receive` is a total function into
`TaggedResult`, so the fault is never propagated.  Scenario 5 is the
witness below. -/
theorem C4_receive_tagging (parms : Dict) (handle : Dict → Except String Val)
    (msg : Dict)
    (hsid : (dlookup msg "sid").isSome = true)
    (hname : (dlookup parms "name").isSome = true) :
    (∀ v, handle msg = Except.ok v →
      service_receive (Except.ok msg) parms (Except.ok ()) handle = TaggedResult.ok v) ∧
    (∀ e, handle msg = Except.error e →
      service_receive (Except.ok msg) parms (Except.ok ()) handle = TaggedResult.error e) := by
  obtain ⟨sv, hsv⟩ := Option.isSome_iff_exists.mp hsid
  obtain ⟨nv, hnv⟩ := Option.isSome_iff_exists.mp hname
  constructor
  · intro v hv
    simp [service_receive, hsv, hnv, hv]
  · intro e he
    simp [service_receive, hsv, hnv, he]

/-- Claim C4 witness: scenario 5, a handler raising a fault reading
timeout makes the dispatch answer the tagged pair (error, timeout). -/
theorem C4_receive_tagging_witness :
    service_receive (Except.ok [("sid", Val.str "s1")]) [("name", Val.str "svc")]
      (Except.ok ()) (fun _ => Except.error "timeout") = TaggedResult.error "timeout" :=
  (C4_receive_tagging [("name", Val.str "svc")] (fun _ => Except.error "timeout")
    [("sid", Val.str "s1")] rfl rfl).2 "timeout" rfl

/-! ## Claim C1: payload exclusivity of derived sends -/

/-- Claim C1 amended: a derived send preserves the payload invariant
provided the overlay is itself well-formed for a derivation: for every
completed `send_message` whose original envelope satisfies the payload
invariant and whose overlay does not carry both `data` and `fpath` at
once (and carries no stray `fsize` when it carries neither payload
key), the merged envelope passed to the host contains exactly one of
`data`/`fpath` and its `fsize` equals the length of the inline data or
the size of the referenced file.  The claim as frozen quantifies over
every overlay and fails on an overlay holding both payload keys (see
the counterexample). -/
theorem C1_derived_send_envelope (fs : FS) (id : String) (msg newmsg : Dict)
    (r : SendMsgResult)
    (hmsg : envelopeOk fs msg = true)
    (hboth : (dcontains newmsg "data" && dcontains newmsg "fpath") = false)
    (hfsz : dcontains newmsg "data" = false → dcontains newmsg "fpath" = false →
      dcontains newmsg "fsize" = false)
    (hr : send_message fs id msg newmsg = some r) :
    envelopeOk fs r.merged = true := by
  obtain ⟨pmid, hm, hrid, hmerge, hpar, hmid, hbr⟩ :=
    send_message_cases fs id msg newmsg r hr
  rcases hbr with ⟨d, l, hb1, hb2, hd, hl, hmsgOut, hnmOut⟩ |
    ⟨p, sz, hb1, hb3, hb4, hv, hfs2, hmsgOut, hnmOut⟩ |
    ⟨hb1, hb3, hmsgOut, hnmOut⟩
  · -- overlay supplies data: fpath was deleted, fsize recomputed from data
    have hnf : dcontains newmsg "fpath" = false := by
      rw [hb1] at hboth
      simpa using hboth
    rw [hmerge, hmsgOut, hnmOut]
    have h1 : dlookup (dmerge (derase msg "fpath")
        (dset (dset (dset newmsg "parent" pmid) "msgid" (Val.str id)) "fsize" (Val.nat l)))
        "data" = some d := by
      simp [dlookup_dmerge, dcontains_dset, dlookup_dset, hb1, hd]
    have h2 : dlookup (dmerge (derase msg "fpath")
        (dset (dset (dset newmsg "parent" pmid) "msgid" (Val.str id)) "fsize" (Val.nat l)))
        "fpath" = none := by
      simp [dlookup_dmerge, dcontains_dset, dlookup_derase, hnf]
    have h3 : dlookup (dmerge (derase msg "fpath")
        (dset (dset (dset newmsg "parent" pmid) "msgid" (Val.str id)) "fsize" (Val.nat l)))
        "fsize" = some (Val.nat l) := by
      simp [dlookup_dmerge, dcontains_dset, dlookup_dset]
    unfold envelopeOk
    rw [h1, h2, h3]
    simp [hl]
  · -- overlay supplies fpath: data was deleted, fsize recomputed from the file
    rw [hmerge, hmsgOut, hnmOut]
    have h1 : dlookup (dmerge (derase msg "data")
        (dset (dset (dset newmsg "parent" pmid) "msgid" (Val.str id)) "fsize" (Val.nat sz)))
        "data" = none := by
      simp [dlookup_dmerge, dcontains_dset, dlookup_derase, hb1]
    have h2 : dlookup (dmerge (derase msg "data")
        (dset (dset (dset newmsg "parent" pmid) "msgid" (Val.str id)) "fsize" (Val.nat sz)))
        "fpath" = some (Val.str p) := by
      simp [dlookup_dmerge, dcontains_dset, dlookup_dset, hb3, hv]
    have h3 : dlookup (dmerge (derase msg "data")
        (dset (dset (dset newmsg "parent" pmid) "msgid" (Val.str id)) "fsize" (Val.nat sz)))
        "fsize" = some (Val.nat sz) := by
      simp [dlookup_dmerge, dcontains_dset, dlookup_dset]
    unfold envelopeOk
    rw [h1, h2, h3]
    simp [hfs2]
  · -- overlay supplies neither: the original payload fields survive
    have hns : dcontains newmsg "fsize" = false := hfsz hb1 hb3
    rw [hmerge, hmsgOut, hnmOut]
    have h1 : dlookup (dmerge msg (dset (dset newmsg "parent" pmid) "msgid" (Val.str id)))
        "data" = dlookup msg "data" := by
      simp [dlookup_dmerge, dcontains_dset, hb1]
    have h2 : dlookup (dmerge msg (dset (dset newmsg "parent" pmid) "msgid" (Val.str id)))
        "fpath" = dlookup msg "fpath" := by
      simp [dlookup_dmerge, dcontains_dset, hb3]
    have h3 : dlookup (dmerge msg (dset (dset newmsg "parent" pmid) "msgid" (Val.str id)))
        "fsize" = dlookup msg "fsize" := by
      simp [dlookup_dmerge, dcontains_dset, hns]
    unfold envelopeOk at hmsg ⊢
    rw [h1, h2, h3]
    exact hmsg

/-- Claim C1 witness: the scenario 4 derived send (original by file
reference, overlay with inline hello) yields a merged envelope
satisfying the payload invariant. -/
theorem C1_derived_send_envelope_witness : envelopeOk fsX scnResult.merged = true :=
  C1_derived_send_envelope fsX "b" scnMsg scnOverlay scnResult
    (by decide) (by decide) (by decide) (by decide)

/-- Claim C1 counterexample: an overlay carrying both `data` and
`fpath` completes the send, but the merged envelope passed to the host
carries both payload keys, not exactly one. -/
theorem C1_counterexample :
    ((send_message noFiles "b" [("msgid", Val.str "A"), ("fpath", Val.str "/x")]
        [("data", Val.str "hello"), ("fpath", Val.str "/y")]).map
      (fun r => dcontains r.merged "data" && dcontains r.merged "fpath")) = some true := by
  decide

/-! ## Claim C2: lineage and id freshness of derived sends -/

theorem genA_injective : Function.Injective genA := by
  intro a b h
  injection h with h2
  simpa using congrArg List.length h2

/-- Claim C2: for every completed derived send in a run whose id draws
form an injective stream (the model of the negligible uuid4 collision
probability) and whose original envelope carries an id issued earlier
in the run, the merged envelope's `parent` equals the original's
`msgid`, its `msgid` is the freshly drawn id, that id is what
`send_message` returns, and it differs from the original's id and from
every id issued earlier in the run. -/
theorem C2_send_message_lineage (fs : FS) (gen : Nat → String) (n : Nat)
    (msg newmsg : Dict) (origId : String) (r : SendMsgResult)
    (hinj : Function.Injective gen)
    (horig : dlookup msg "msgid" = some (Val.str origId))
    (hmem : origId ∈ issuedIds gen n)
    (hr : send_message fs (gen n) msg newmsg = some r) :
    dlookup r.merged "parent" = some (Val.str origId) ∧
    dlookup r.merged "msgid" = some (Val.str (gen n)) ∧
    r.msgid = gen n ∧
    gen n ≠ origId ∧
    gen n ∉ issuedIds gen n := by
  obtain ⟨pmid, hm, hrid, hmerge, hpar, hmid, hbr⟩ :=
    send_message_cases fs (gen n) msg newmsg r hr
  rw [horig] at hm
  injection hm with hm2
  subst hm2
  have hnotmem : gen n ∉ issuedIds gen n := by
    intro hmem2
    simp only [issuedIds, List.mem_map, List.mem_range] at hmem2
    obtain ⟨i, hi, hgi⟩ := hmem2
    exact Nat.ne_of_lt hi (hinj hgi)
  refine ⟨?_, ?_, hrid, ?_, hnotmem⟩
  · rw [hmerge, dlookup_dmerge]
    simp [dcontains, hpar]
  · rw [hmerge, dlookup_dmerge]
    simp [dcontains, hmid]
  · intro he
    rw [← he] at hmem
    exact hnotmem hmem

/-- Claim C2 witness: a two-draw run of the deterministic stream
`genA`, deriving from an original whose id was the first draw. -/
theorem C2_send_message_lineage_witness :
    dlookup linResult.merged "parent" = some (Val.str (genA 0)) ∧
    dlookup linResult.merged "msgid" = some (Val.str (genA 1)) ∧
    linResult.msgid = genA 1 ∧
    genA 1 ≠ genA 0 ∧
    genA 1 ∉ issuedIds genA 1 :=
  C2_send_message_lineage noFiles genA 1 linMsg [] (genA 0) linResult
    genA_injective (by decide) (by decide) (by decide)

/-! ## Claim C5: the provider attribute -/

/-- Claim C5 counterexample: with the `use_provider` flag absent from
parms while every other required construction field is present,
`Action.__init__` raises a KeyError on `parms[use_provider]` instead of
completing with the provider attribute unpopulated. -/
theorem C5_counterexample :
    dcontains noFlagParms "use_provider" = false ∧
    dlookup noFlagPayload "parms" = some (Val.dict noFlagParms) ∧
    action_init noFlagPayload = none := by
  decide

/-- Claim C5 amended: the provider attribute is populated (from
`parms[provider]`) exactly when `parms[use_provider]` is present and
truthy; when the flag is present but falsy the attribute stays
unpopulated, and when the flag is absent construction raises instead
of completing. -/
theorem C5_provider_flag (md parms : Dict)
    (hp : dlookup md "parms" = some (Val.dict parms)) :
    (dlookup parms "use_provider" = none → action_init md = none) ∧
    (∀ up st, dlookup parms "use_provider" = some up → action_init md = some st →
      (truthy up = true →
        st.provider = dlookup parms "provider" ∧ st.provider.isSome = true) ∧
      (truthy up = false → st.provider = none)) := by
  constructor
  · intro hup
    cases h1 : dlookup md "msg" with
    | none => simp [action_init, h1]
    | some v =>
      cases v with
      | str s => simp [action_init, h1]
      | nat n => simp [action_init, h1]
      | bool b => simp [action_init, h1]
      | dict msg =>
        cases h3 : dlookup md "sysparms" with
        | none => simp [action_init, h1, hp, h3]
        | some sys =>
          cases h4 : dlookup parms "parms" with
          | none => simp [action_init, h1, hp, h3, h4]
          | some ex => simp [action_init, h1, hp, h3, h4, hup]
  · intro up st hup hst
    cases h1 : dlookup md "msg" with
    | none => simp [action_init, h1] at hst
    | some v =>
      cases v with
      | str s => simp [action_init, h1] at hst
      | nat n => simp [action_init, h1] at hst
      | bool b => simp [action_init, h1] at hst
      | dict msg =>
        cases h3 : dlookup md "sysparms" with
        | none => simp [action_init, h1, hp, h3] at hst
        | some sys =>
          cases h4 : dlookup parms "parms" with
          | none => simp [action_init, h1, hp, h3, h4] at hst
          | some ex =>
            by_cases ht : truthy up = true
            · cases h5 : dlookup parms "provider" with
              | none => simp [action_init, h1, hp, h3, h4, hup, ht, h5] at hst
              | some pv =>
                have hx : action_init md =
                    some ⟨msg, parms, sys, ex, some pv,
                      match dlookup msg "sid" with
                      | some sv => if truthy sv then some sv else none
                      | none => none⟩ := by
                  simp [action_init, h1, hp, h3, h4, hup, ht, h5]
                rw [hx] at hst
                injection hst with h6
                subst h6
                refine ⟨fun _ => ⟨?_, rfl⟩, fun hf => ?_⟩
                · rfl
                · rw [hf] at ht
                  simp at ht
            · have hf : truthy up = false := by
                cases hb : truthy up
                · rfl
                · exact absurd hb ht
              have hx : action_init md =
                  some ⟨msg, parms, sys, ex, none,
                    match dlookup msg "sid" with
                    | some sv => if truthy sv then some sv else none
                    | none => none⟩ := by
                simp [action_init, h1, hp, h3, h4, hup, hf]
              rw [hx] at hst
              injection hst with h6
              subst h6
              refine ⟨fun htc => ?_, fun _ => rfl⟩
              · rw [htc] at hf
                simp at hf

/-- Claim C5 witness: a payload whose parms carries a truthy
`use_provider` flag and a provider map populates the provider
attribute with that map. -/
theorem C5_provider_flag_witness :
    (truthy (Val.bool true) = true →
      flagState.provider = dlookup flagParms "provider" ∧
        flagState.provider.isSome = true) ∧
    (truthy (Val.bool true) = false → flagState.provider = none) :=
  (C5_provider_flag flagPayload flagParms (by decide)).2 (Val.bool true) flagState
    (by decide) (by decide)

/-! ## Claim C6: new sends -/

/-- Claim C6 counterexample: `send_new` never sets a parent, but it
does not strip one either: a caller envelope already carrying a parent
key is dispatched with that key, contradicting that the dispatched
envelope carries no parent field on every call. -/
theorem C6_counterexample :
    ((send_new noFiles "b" [("parent", Val.str "P"), ("data", Val.str "hi")]).map
      (fun r => dcontains r.envelope "parent")) = some true := by
  decide

/-- Claim C6 amended: for every completed new send whose envelope does
not already carry a parent key, the fresh id is stamped as the
envelope msgid and returned, fsize is computed as the length of the
inline data when the data key is present and as the referenced file
size otherwise, and the dispatched envelope carries no parent field
(the code adds none; a caller-supplied parent passes through, see the
counterexample). -/
theorem C6_send_new_envelope (fs : FS) (id : String) (newmsg : Dict)
    (r : SendNewResult)
    (hnp : dcontains newmsg "parent" = false)
    (hr : send_new fs id newmsg = some r) :
    r.msgid = id ∧
    dlookup r.envelope "msgid" = some (Val.str id) ∧
    dcontains r.envelope "parent" = false ∧
    fsizeMatches fs newmsg r.envelope = true := by
  cases hd : dlookup newmsg "data" with
  | some d =>
    cases hl : pyLen d with
    | none =>
      have heq : send_new fs id newmsg = none := by
        simp [send_new, dcontains, dcontains_dset, dlookup_dset, hd, hl]
      rw [heq] at hr
      simp at hr
    | some l =>
      have heq : send_new fs id newmsg =
          some ⟨dset (dset newmsg "msgid" (Val.str id)) "fsize" (Val.nat l), id⟩ := by
        simp [send_new, dcontains, dcontains_dset, dlookup_dset, hd, hl]
      rw [heq] at hr
      injection hr with hr2
      subst hr2
      refine ⟨rfl, ?_, ?_, ?_⟩
      · simp [dlookup_dset]
      · simp [dcontains_dset, hnp]
      · simp [fsizeMatches, hd, hl, dlookup_dset]
  | none =>
    cases hv : dlookup newmsg "fpath" with
    | none =>
      have heq : send_new fs id newmsg = none := by
        simp [send_new, dcontains, dcontains_dset, dlookup_dset, hd, hv]
      rw [heq] at hr
      simp at hr
    | some v =>
      cases v with
      | str p =>
        cases hfs : fs p with
        | none =>
          have heq : send_new fs id newmsg = none := by
            simp [send_new, dcontains, dcontains_dset, dlookup_dset, hd, hv, hfs]
          rw [heq] at hr
          simp at hr
        | some sz =>
          have heq : send_new fs id newmsg =
              some ⟨dset (dset newmsg "msgid" (Val.str id)) "fsize" (Val.nat sz), id⟩ := by
            simp [send_new, dcontains, dcontains_dset, dlookup_dset, hd, hv, hfs]
          rw [heq] at hr
          injection hr with hr2
          subst hr2
          refine ⟨rfl, ?_, ?_, ?_⟩
          · simp [dlookup_dset]
          · simp [dcontains_dset, hnp]
          · simp [fsizeMatches, hd, hv, hfs, dlookup_dset]
      | nat n =>
        have heq : send_new fs id newmsg = none := by
          simp [send_new, dcontains, dcontains_dset, dlookup_dset, hd, hv]
        rw [heq] at hr
        simp at hr
      | bool b =>
        have heq : send_new fs id newmsg = none := by
          simp [send_new, dcontains, dcontains_dset, dlookup_dset, hd, hv]
        rw [heq] at hr
        simp at hr
      | dict dd =>
        have heq : send_new fs id newmsg = none := by
          simp [send_new, dcontains, dcontains_dset, dlookup_dset, hd, hv]
        rw [heq] at hr
        simp at hr

/-- Claim C6 witness: a new send of a file-reference envelope with no
parent key. -/
theorem C6_send_new_envelope_witness :
    newFileResult.msgid = "c" ∧
    dlookup newFileResult.envelope "msgid" = some (Val.str "c") ∧
    dcontains newFileResult.envelope "parent" = false ∧
    fsizeMatches fsX newFileMsg newFileResult.envelope = true :=
  C6_send_new_envelope fsX "c" newFileMsg newFileResult (by decide) (by decide)

/-! ## Claim C8: send_file results -/

/-- Claim C8 counterexample: meta entries win on merge conflicts, so a
meta carrying its own fname key overrides the computed base name; the
claim as frozen requires the msg to bind fname to the base name for
every meta mapping. -/
theorem C8_counterexample :
    ((send_file fs42 "completed" "/tmp/out.txt" [("fname", Val.str "evil")]).map
      (fun d =>
        match dlookup d "msg" with
        | some (Val.dict m) =>
          decide (dlookup m "fname" = some (Val.str (basename "/tmp/out.txt")))
        | _ => true)) = some false := by
  decide

/-- Claim C8 amended: for every status, path to an existing file of
size n, and meta mapping that does not itself carry any of the
computed keys fname/fsize/fpath, `send_file` returns the status plus a
msg fragment binding fname to the base name of the path, fsize to the
on-disk size, and fpath to the path, with every entry of meta
preserved; on key conflicts meta overrides the computed triple (see
the counterexample). -/
theorem C8_send_file_result (fs : FS) (status fpath : String) (meta : Dict) (n : Nat)
    (hex : fs fpath = some n)
    (h1 : dcontains meta "fname" = false)
    (h2 : dcontains meta "fsize" = false)
    (h3 : dcontains meta "fpath" = false) :
    send_file fs status fpath meta =
      some [("status", Val.str status),
            ("msg", Val.dict (send_file_msg fpath n meta))] ∧
    dlookup (send_file_msg fpath n meta) "fname" = some (Val.str (basename fpath)) ∧
    dlookup (send_file_msg fpath n meta) "fsize" = some (Val.nat n) ∧
    dlookup (send_file_msg fpath n meta) "fpath" = some (Val.str fpath) ∧
    ∀ k, dcontains meta k = true →
      dlookup (send_file_msg fpath n meta) k = dlookup meta k := by
  refine ⟨by simp [send_file, hex], ?_, ?_, ?_, ?_⟩
  · unfold send_file_msg
    rw [dlookup_dmerge]
    simp [h1, dlookup]
  · unfold send_file_msg
    rw [dlookup_dmerge]
    simp [h2, dlookup]
  · unfold send_file_msg
    rw [dlookup_dmerge]
    simp [h3, dlookup]
  · intro k hk
    unfold send_file_msg
    rw [dlookup_dmerge, hk]
    simp

/-- Claim C8 witness: scenario 3, a 42-byte file and one metadata
entry. -/
theorem C8_send_file_result_witness :
    send_file fs42 "completed" "/tmp/out.txt" scnMeta =
      some [("status", Val.str "completed"),
            ("msg", Val.dict [("fname", Val.str "out.txt"), ("fsize", Val.nat 42),
                              ("fpath", Val.str "/tmp/out.txt"),
                              ("partner", Val.str "acme")])] :=
  (C8_send_file_result fs42 "completed" "/tmp/out.txt" scnMeta 42
    (by decide) (by decide) (by decide) (by decide)).1

/-! ## Claim C10: send_message mutates both argument dicts -/

/-- Claim C10 counterexample: with an overlay carrying neither data nor
fpath the derived send completes with the caller original dict left
unchanged and no fsize entry added to the overlay, contradicting the
unconditional mutation claim. -/
theorem C10_counterexample :
    ((send_message noFiles "b" [("msgid", Val.str "A"), ("data", Val.str "x")] []).map
      (fun r => decide (r.msgOut = [("msgid", Val.str "A"), ("data", Val.str "x")]) &&
        ! dcontains r.newmsgOut "fsize")) = some true := by
  decide

/-- Claim C10 amended: on every completed derived send the overlay
gains parent (the original msgid) and msgid entries; when the overlay
carries data, fpath is deleted from the caller original and the
overlay gains fsize; when the overlay carries fpath but no data, data
is deleted from the original and the overlay gains fsize; when the
overlay carries neither, the original is left unchanged and the
overlay gains no fsize entry. -/
theorem C10_send_message_mutation (fs : FS) (id : String) (msg newmsg : Dict)
    (pmid : Val) (r : SendMsgResult)
    (horig : dlookup msg "msgid" = some pmid)
    (hr : send_message fs id msg newmsg = some r) :
    dlookup r.newmsgOut "parent" = some pmid ∧
    dlookup r.newmsgOut "msgid" = some (Val.str id) ∧
    (dcontains newmsg "data" = true →
      r.msgOut = derase msg "fpath" ∧ dcontains r.newmsgOut "fsize" = true) ∧
    (dcontains newmsg "data" = false → dcontains newmsg "fpath" = true →
      r.msgOut = derase msg "data" ∧ dcontains r.newmsgOut "fsize" = true) ∧
    (dcontains newmsg "data" = false → dcontains newmsg "fpath" = false →
      r.msgOut = msg ∧ dcontains r.newmsgOut "fsize" = dcontains newmsg "fsize") := by
  obtain ⟨pmid2, hm, hrid, hmerge, hpar, hmid, hbr⟩ :=
    send_message_cases fs id msg newmsg r hr
  rw [horig] at hm
  injection hm with hm2
  subst hm2
  rcases hbr with ⟨d, l, hb1, hb2, hd, hl, hmsgOut, hnmOut⟩ |
    ⟨p, sz, hb1, hb3, hb4, hv, hfs2, hmsgOut, hnmOut⟩ |
    ⟨hb1, hb3, hmsgOut, hnmOut⟩
  · refine ⟨hpar, hmid, fun _ => ⟨hmsgOut, ?_⟩, fun hc _ => ?_, fun hc _ => ?_⟩
    · rw [hnmOut]
      simp [dcontains_dset]
    · rw [hc] at hb1
      simp at hb1
    · rw [hc] at hb1
      simp at hb1
  · refine ⟨hpar, hmid, fun hc => ?_, fun _ _ => ⟨hmsgOut, ?_⟩, fun _ hc => ?_⟩
    · rw [hc] at hb1
      simp at hb1
    · rw [hnmOut]
      simp [dcontains_dset]
    · rw [hc] at hb3
      simp at hb3
  · refine ⟨hpar, hmid, fun hc => ?_, fun _ hc => ?_, fun _ _ => ⟨hmsgOut, ?_⟩⟩
    · rw [hc] at hb1
      simp at hb1
    · rw [hc] at hb3
      simp at hb3
    · rw [hnmOut]
      simp [dcontains_dset]

/-- Claim C10 witness: the scenario 4 send (overlay carrying data)
deletes fpath from the original and stamps parent, msgid and fsize on
the overlay. -/
theorem C10_send_message_mutation_witness :
    dlookup frameResult.newmsgOut "parent" = some (Val.str "A") ∧
    dlookup frameResult.newmsgOut "msgid" = some (Val.str "d") ∧
    (dcontains frameOverlay "data" = true →
      frameResult.msgOut = derase scnMsg "fpath" ∧
        dcontains frameResult.newmsgOut "fsize" = true) ∧
    (dcontains frameOverlay "data" = false → dcontains frameOverlay "fpath" = true →
      frameResult.msgOut = derase scnMsg "data" ∧
        dcontains frameResult.newmsgOut "fsize" = true) ∧
    (dcontains frameOverlay "data" = false → dcontains frameOverlay "fpath" = false →
      frameResult.msgOut = scnMsg ∧
        dcontains frameResult.newmsgOut "fsize" = dcontains frameOverlay "fsize") :=
  C10_send_message_mutation fsX "d" scnMsg frameOverlay (Val.str "A") frameResult
    (by decide) (by decide)

end Amps
